import Mathlib

/-!
# Shallow embedding of `src/odometer.c` (grblHAL odometer plugin)

The plugin keeps cumulative machine statistics: motor run time, spindle run
time (both in milliseconds, `uint64_t` in the source) and per-axis travelled
distance (`float` per axis).  Step pulses are counted in an interrupt
context; on exit from an active-motion machine state the counts are folded
into the distances and the record is persisted to NVS.  Two NVS slots exist:
the current record and a previous snapshot written by `reset(backup=true)`.

Modelling conventions:
* `uint32_t` tick arithmetic is modelled exactly: ticks are reduced mod 2^32
  and `now - ms` is the wrap-around difference `u32sub`.
* The `uint64_t` millisecond accumulators are modelled as `Nat`: at one tick
  per millisecond a 64-bit accumulator cannot overflow on any physical time
  scale, so the truncation is unobservable and overflow does not matter here.
* `float` distances and the `steps_per_mm` scales are idealised as `ℚ`
  (exact arithmetic); the C source performs the same computation in `f32`.
* NVS slot contents are modelled at record granularity: a slot holds
  `some r` after a successful write of record `r`, `none` when the slot is
  absent/corrupt (an integrity-check failure on load).
* Externally observable actions (chained-handler forwarding, NVS writes,
  task scheduling, report messages) are returned as a list of `Effect`s.
* The build is the base 3-axis configuration (`N_AXIS = 3`, the `A`/`B`/`C`
  axes are compiled out in the source).
-/

namespace Odometer

/-- Number of axes in the modelled build (X, Y, Z). -/
abbrev N_AXIS : Nat := 3

/-- 2^32, the modulus of `uint32_t` arithmetic. -/
def U32 : Nat := 2 ^ 32

/-- `uint32_t` subtraction `now - ms` (both operands reduced mod 2^32). -/
def u32sub (now ms : Nat) : Nat := (now % U32 + U32 - ms % U32) % U32

/-- The persisted record: `{ uint64_t motors; uint64_t spindle;
float distance[N_AXIS]; }` (`odometer_data_t` in the source). -/
structure odometer_data_t where
  motors : Nat
  spindle : Nat
  distance : Fin N_AXIS → ℚ
deriving DecidableEq

/-- The all-zero record, as produced by `memset(&odometers, 0, ...)`. -/
def zeroRecord : odometer_data_t :=
  { motors := 0, spindle := 0, distance := fun _ => 0 }

/-- The mutable module state of `odometer.c`: the per-axis step counters,
the dirty flag, the two in-memory records, the two NVS slots, and the two
`static uint32_t ms` epoch variables (of `onStateChanged` and
`onSpindleSetState`). -/
structure OdoState where
  steps : Fin N_AXIS → Nat
  odometer_changed : Bool
  odometers : odometer_data_t
  odometers_prv : odometer_data_t
  nvs_current : Option odometer_data_t
  nvs_prv : Option odometer_data_t
  ms_motion : Nat
  ms_spindle : Nat
deriving DecidableEq

/-- The state at C static initialisation: everything zero, slot contents
unspecified by this structure's defaults (fields filled at use sites). -/
def startState : OdoState :=
  { steps := fun _ => 0
    odometer_changed := false
    odometers := zeroRecord
    odometers_prv := zeroRecord
    nvs_current := none
    nvs_prv := none
    ms_motion := 0
    ms_spindle := 0 }

/-- Externally observable actions performed by the plugin's entry points. -/
inductive message_type_t where
  | Plain
  | Warning
deriving DecidableEq

inductive Effect where
  | forward_pulse
  | forward_state (state : Nat)
  | forward_spindle
  | nvs_write_current
  | nvs_write_prv
  | task_add_immediate
  | report (msg : String) (t : message_type_t)
deriving DecidableEq

/-- Return value of `odometer_command` (`status_code_t`); the grblHAL enum
is abstracted to the success code, the unhandled code, and the family of
explicit error codes — three mutually distinct classes. -/
inductive status_code_t where
  | Status_OK
  | Status_Unhandled
  | Status_Error (code : Nat)
deriving DecidableEq

/-! ## Machine states (grblHAL `sys_state_t` bitmask) -/

def STATE_IDLE : Nat := 0
def STATE_ALARM : Nat := 1
def STATE_CHECK_MODE : Nat := 2
def STATE_HOMING : Nat := 4
def STATE_CYCLE : Nat := 8
def STATE_HOLD : Nat := 16
def STATE_JOG : Nat := 32
def STATE_SAFETY_DOOR : Nat := 64
def STATE_SLEEP : Nat := 128

/-- The active-motion mask tested by `onStateChanged`:
`STATE_CYCLE|STATE_JOG|STATE_HOMING|STATE_SAFETY_DOOR`. -/
def activeMask : Nat := STATE_CYCLE ||| STATE_JOG ||| STATE_HOMING ||| STATE_SAFETY_DOOR

/-! ## Step counting (`stepperPulseStart`) -/

/-- The step-output bits of one pulse event (`stepper->step_out`),
restricted to the three configured axes. -/
structure step_outbits_t where
  x : Bool
  y : Bool
  z : Bool
deriving DecidableEq

/-- `stepperPulseStart`: sets the dirty flag, increments the counter of
every axis whose step bit is set (`uint32_t` increment), then forwards to
the saved `stepper_pulse_start`. -/
def stepperPulseStart (step_out : step_outbits_t) (st : OdoState) :
    OdoState × List Effect :=
  let bump : Fin N_AXIS → Bool := fun i =>
    if i.val = 0 then step_out.x else if i.val = 1 then step_out.y else step_out.z
  let steps' : Fin N_AXIS → Nat := fun i =>
    if bump i then (st.steps i + 1) % U32 else st.steps i
  ({ st with odometer_changed := true, steps := steps' }, [Effect.forward_pulse])

/-! ## State-change handling (`onStateChanged`) -/

/-- `onStateChanged state`: if the new state is in the active-motion mask,
re-arm the motion epoch `ms`; otherwise, when the dirty flag is set, add
`now - ms` to `motors`, fold each nonzero step counter into the distance of
its axis (`steps / steps_per_mm`) and zero it, clear the dirty flag, and
write the current record to NVS.  Always forwards to the saved
`on_state_change` when one was registered.  `scales i` is
`settings.axis[i].steps_per_mm`; `now` is `hal.get_elapsed_ticks()`. -/
def onStateChanged (scales : Fin N_AXIS → ℚ) (has_on_state_change : Bool)
    (state : Nat) (now : Nat) (st : OdoState) : OdoState × List Effect :=
  let core : OdoState × List Effect :=
    if state &&& activeMask ≠ 0 then
      ({ st with ms_motion := now % U32 }, [])
    else if st.odometer_changed then
      -- the do-while loop visits each axis index exactly once; cells are
      -- independent, so it is embedded pointwise
      let od' : odometer_data_t :=
        { st.odometers with
          motors := st.odometers.motors + u32sub now st.ms_motion
          distance := fun i =>
            if st.steps i ≠ 0 then
              st.odometers.distance i + (st.steps i : ℚ) / scales i
            else
              st.odometers.distance i }
      let steps' : Fin N_AXIS → Nat := fun i => if st.steps i ≠ 0 then 0 else st.steps i
      ({ st with
          odometer_changed := false
          odometers := od'
          steps := steps'
          nvs_current := some od' }, [Effect.nvs_write_current])
    else
      (st, [])
  (core.1, core.2 ++ if has_on_state_change then [Effect.forward_state state] else [])

/-- `odometers_write`: the deferred foreground task; writes the current
in-memory record to the current NVS slot. -/
def odometers_write (st : OdoState) : OdoState × List Effect :=
  ({ st with nvs_current := some st.odometers }, [Effect.nvs_write_current])

/-! ## Spindle monitoring (`onSpindleSetState`) -/

/-- `onSpindleSetState`: forwards to the saved `spindle_set_state_` first;
if the requested state is on, records the epoch `ms = now`; otherwise, when
`ms` is nonzero, adds `now - ms` to `spindle`, clears `ms` and schedules the
deferred NVS write.  Note the source uses `ms == 0` as "no epoch recorded",
so an epoch recorded at tick value 0 is indistinguishable from no epoch. -/
def onSpindleSetState (state_on : Bool) (now : Nat) (st : OdoState) :
    OdoState × List Effect :=
  if state_on then
    ({ st with ms_spindle := now % U32 }, [Effect.forward_spindle])
  else if st.ms_spindle ≠ 0 then
    ({ st with
        odometers :=
          { st.odometers with
            spindle := st.odometers.spindle + u32sub now st.ms_spindle }
        ms_spindle := 0 },
      [Effect.forward_spindle, Effect.task_add_immediate])
  else
    (st, [Effect.forward_spindle])

/-! ## Reset (`odometer_data_reset`) -/

/-- `odometer_data_reset backup`: when `backup`, copy the current record
into the previous record and write the previous slot; then zero the current
record and write the current slot. -/
def odometer_data_reset (backup : Bool) (st : OdoState) : OdoState × List Effect :=
  let backed : OdoState × List Effect :=
    if backup then
      ({ st with odometers_prv := st.odometers, nvs_prv := some st.odometers },
        [Effect.nvs_write_prv])
    else
      (st, [])
  ({ backed.1 with odometers := zeroRecord, nvs_current := some zeroRecord },
    backed.2 ++ [Effect.nvs_write_current])

/-! ## Reporting (`odometers_report`) -/

/-- Zero-padded two-digit minutes, the `%.2ld` conversion. -/
def pad2 (n : Nat) : String := if n < 10 then "0" ++ toString n else toString n

/-- The `H:MM` time format of the report: `hr = ms / 3600000` (assigned to a
`uint32_t`, hence reduced mod 2^32), `min = (ms / 60000) % 60`, printed
`"%ld:%.2ld"`. -/
def formatHM (ms : Nat) : String :=
  toString ((ms / 3600000) % U32) ++ ":" ++ pad2 ((ms / 60000) % 60)

/-- grblHAL `ftoa(value, 1)`: one decimal, add-half-then-truncate rounding,
on the idealised rational value. -/
def ftoa1 (q : ℚ) : String :=
  let n : Int := Int.floor (q * 10 + 1 / 2)
  toString (n / 10) ++ "." ++ toString (n % 10)

/-- `axis_letter[idx]` for the three configured axes. -/
def axis_letter (i : Fin N_AXIS) : String :=
  if i.val = 0 then "X" else if i.val = 1 then "Y" else "Z"

/-- `odometers_report`: emits the spindle-hours line, the motor-hours line,
and one distance line per axis (distance divided by 1000, i.e. reported in
meters). -/
def odometers_report (od : odometer_data_t) : List Effect :=
  [Effect.report ("SPINDLEHRS " ++ formatHM od.spindle) message_type_t.Plain,
   Effect.report ("MOTORHRS " ++ formatHM od.motors) message_type_t.Plain]
  ++ List.ofFn fun i : Fin N_AXIS =>
      Effect.report ("ODOMETER" ++ axis_letter i ++ " " ++ ftoa1 (od.distance i / 1000))
        message_type_t.Plain

/-! ## The `$ODOMETERS` command (`odometer_command`) -/

/-- ASCII upper-casing of one character (`CAPS(c)` in grblHAL). -/
def capsChar (c : Char) : Char :=
  if 'a' ≤ c ∧ c ≤ 'z' then Char.ofNat (c.toNat - 32) else c

/-- `strcaps`: in-place ASCII upper-casing of the argument. -/
def strcaps (s : String) : String := String.mk (s.data.map capsChar)

/-- `odometer_command`: no argument reports the current record (`Status_OK`);
`PREV` loads the previous slot into `odometers_prv` and reports it, or warns
when the load fails, returning `Status_OK` either way; `RST` performs
`odometer_data_reset(true)` (`Status_OK`); anything else leaves the initial
`Status_Unhandled`.  (The source tests `PREV` and `RST` in two successive
`if`s; the strings are distinct, so at most one branch runs.) -/
def odometer_command (args : Option String) (st : OdoState) :
    OdoState × status_code_t × List Effect :=
  match args with
  | none => (st, status_code_t.Status_OK, odometers_report st.odometers)
  | some s =>
    let a := strcaps s
    if a = "PREV" then
      match st.nvs_prv with
      | some r => ({ st with odometers_prv := r }, status_code_t.Status_OK, odometers_report r)
      | none =>
        (st, status_code_t.Status_OK,
          [Effect.report "Previous odometer values not available" message_type_t.Warning])
    else if a = "RST" then
      let r := odometer_data_reset true st
      (r.1, status_code_t.Status_OK, r.2)
    else
      (st, status_code_t.Status_Unhandled, [])

/-! ## Initialisation (`odometer_init`) -/

/-- grblHAL NVS backend technologies (`nvs_type`). -/
inductive nvs_type where
  | NVS_None
  | NVS_EEPROM
  | NVS_FRAM
  | NVS_Flash
  | NVS_Emulated
deriving DecidableEq

/-- `sizeof(odometer_data_t)`: two 8-byte integers and `N_AXIS` 4-byte
floats, no padding. -/
def sizeof_odometer_data_t : Nat := 8 + 8 + 4 * N_AXIS

/-- The environment `odometer_init` reads: the NVS backend type and
geometry (`NVS_SIZE`, `GRBL_NVS_SIZE`, `hal.nvs.driver_area.size`,
`NVS_CRC_BYTES`) and the pre-existing contents of the two slots.
The platform guarantees `GRBL_NVS_SIZE + driver_area_size ≤ NVS_SIZE`
(the grbl settings area and driver area fit in NVS), so the `Nat`
subtraction below agrees with the C `uint32_t` computation. -/
structure InitEnv where
  nvs_typ : nvs_type
  NVS_SIZE : Nat
  GRBL_NVS_SIZE : Nat
  driver_area_size : Nat
  NVS_CRC_BYTES : Nat
  nvs_current : Option odometer_data_t
  nvs_prv : Option odometer_data_t

/-- What `odometer_init` did: the resulting module state, whether the five
hooks were installed, whether the `$ODOMETERS` command was registered,
whether `hal.driver_cap.odometers` was set, the startup warnings scheduled,
and the two slot addresses. -/
structure InitResult where
  st : OdoState
  hooks_installed : Bool
  commands_registered : Bool
  capability_set : Bool
  startup_warnings : List String
  odometers_address : Nat
  odometers_address_prv : Nat
deriving DecidableEq

/-- The module state as seen right after `odometer_init` starts: C
zero-initialised statics plus the given slot contents. -/
def initialState (env : InitEnv) : OdoState :=
  { startState with nvs_current := env.nvs_current, nvs_prv := env.nvs_prv }

/-- `odometer_init`: requires an EEPROM- or FRAM-type backend and free
capacity `NVS_SIZE - GRBL_NVS_SIZE - driver_area.size` of at least
`2 * (sizeof(odometer_data_t) + NVS_CRC_BYTES)`; on failure only a startup
warning is scheduled.  On success it computes the two slot addresses, loads
the current record (falling back to `odometer_data_reset(false)` when the
load fails), sets the capability bit, installs the hooks and registers the
command. -/
def odometer_init (env : InitEnv) : InitResult :=
  if ¬ (env.nvs_typ = nvs_type.NVS_EEPROM ∨ env.nvs_typ = nvs_type.NVS_FRAM) then
    { st := initialState env
      hooks_installed := false
      commands_registered := false
      capability_set := false
      startup_warnings := ["EEPROM or FRAM is required for odometers!"]
      odometers_address := 0
      odometers_address_prv := 0 }
  else if env.NVS_SIZE - env.GRBL_NVS_SIZE - env.driver_area_size <
      (sizeof_odometer_data_t + env.NVS_CRC_BYTES) * 2 then
    { st := initialState env
      hooks_installed := false
      commands_registered := false
      capability_set := false
      startup_warnings := ["Not enough NVS storage for odometers!"]
      odometers_address := 0
      odometers_address_prv := 0 }
  else
    let addr := env.NVS_SIZE - (sizeof_odometer_data_t + env.NVS_CRC_BYTES)
    let addr_prv := addr - (sizeof_odometer_data_t + env.NVS_CRC_BYTES)
    let st₀ := initialState env
    let st₁ :=
      match env.nvs_current with
      | some r => { st₀ with odometers := r }
      | none => (odometer_data_reset false st₀).1
    { st := st₁
      hooks_installed := true
      commands_registered := true
      capability_set := true
      startup_warnings := []
      odometers_address := addr
      odometers_address_prv := addr_prv }

/-! ## Operations, for whole-system frame properties -/

/-- One invocation of any plugin entry point after initialisation. -/
inductive Op where
  | pulse (s : step_outbits_t)
  | state_changed (state now : Nat)
  | spindle_set_state (state_on : Bool) (now : Nat)
  | write_task
  | reset (backup : Bool)
  | command (args : Option String)
deriving DecidableEq

/-- Apply one operation to the module state (effects and status dropped). -/
def applyOp (scales : Fin N_AXIS → ℚ) (has_on_state_change : Bool)
    (op : Op) (st : OdoState) : OdoState :=
  match op with
  | Op.pulse s => (stepperPulseStart s st).1
  | Op.state_changed state now => (onStateChanged scales has_on_state_change state now st).1
  | Op.spindle_set_state state_on now => (onSpindleSetState state_on now st).1
  | Op.write_task => (odometers_write st).1
  | Op.reset backup => (odometer_data_reset backup st).1
  | Op.command args => (odometer_command args st).1

/-- An operation that performs a reset-with-backup: a direct
`odometer_data_reset(true)` or the `RST` command form. -/
def isBackupReset (op : Op) : Bool :=
  match op with
  | Op.reset backup => backup
  | Op.command (some s) => strcaps s = "RST"
  | _ => false

/-- An operation that is the `PREV` query form of the command. -/
def isPrevQuery (op : Op) : Bool :=
  match op with
  | Op.command (some s) => strcaps s = "PREV"
  | _ => false

/-! ## Concrete inputs used to instantiate the theorems -/

/-- A configuration with 100 steps/mm on every axis. -/
def constScales : Fin N_AXIS → ℚ := fun _ => 100

/-- The X axis. -/
def axisX : Fin N_AXIS := 0

/-- A state with 10000 pending X steps and the dirty flag set. -/
def pendingXState : OdoState :=
  { startState with
    steps := fun i => if i.val = 0 then 10000 else 0
    odometer_changed := true }

/-- A sample non-zero record. -/
def sampleRecord : odometer_data_t :=
  { motors := 5, spindle := 7, distance := fun _ => 2 }

/-- A state whose current record is `sampleRecord`. -/
def sampleCurrentState : OdoState := { startState with odometers := sampleRecord }

/-- A state as found after a reboot that followed a backed-up reset: the
in-memory previous record is the zero-initialised static, while the
previous NVS slot still holds `sampleRecord`. -/
def rebootedState : OdoState := { startState with nvs_prv := some sampleRecord }

/-- An init environment whose backend is flash (not byte-rewritable). -/
def flashEnv : InitEnv :=
  { nvs_typ := nvs_type.NVS_Flash
    NVS_SIZE := 1024
    GRBL_NVS_SIZE := 512
    driver_area_size := 0
    NVS_CRC_BYTES := 2
    nvs_current := none
    nvs_prv := none }

/-! # Theorems -/

/-- C1: for every axis `X` with configured scale `S > 0`, if `N > 0` step
pulses are pending for `X` (counted while in motion) and the dirty flag is
set, then the first state-change notification to an inactive state adds
exactly `N / S` to `distance[X]`, zeroes the step counter for `X`, and
clears the dirty flag.  (The `f32` distance arithmetic is idealised as exact
rational arithmetic.) -/
theorem C1_steps_folded_on_inactive
    (scales : Fin N_AXIS → ℚ) (b : Bool) (st : OdoState) (X : Fin N_AXIS)
    (S : ℚ) (N : Nat) (state now : Nat)
    (hS : 0 < S) (hscale : scales X = S) (hN : 0 < N) (hsteps : st.steps X = N)
    (hdirty : st.odometer_changed = true) (hinactive : state &&& activeMask = 0) :
    ((onStateChanged scales b state now st).1).odometers.distance X
        = st.odometers.distance X + (N : ℚ) / S ∧
    ((onStateChanged scales b state now st).1).steps X = 0 ∧
    ((onStateChanged scales b state now st).1).odometer_changed = false := by
  have hN0 : N ≠ 0 := Nat.pos_iff_ne_zero.mp hN
  simp [onStateChanged, hinactive, hdirty, hsteps, hscale, hN0]

/-- C1 witness: scale 100 steps/mm, 10000 pending X steps, notification of
`STATE_IDLE`: the distance grows by `10000 / 100` and the counter clears. -/
theorem C1_steps_folded_on_inactive_witness :
    (0 : ℚ) < 100 ∧ 0 < 10000 ∧ pendingXState.steps axisX = 10000 ∧
    pendingXState.odometer_changed = true ∧ STATE_IDLE &&& activeMask = 0 ∧
    (((onStateChanged constScales false STATE_IDLE 99 pendingXState).1).odometers.distance axisX
        = pendingXState.odometers.distance axisX + (10000 : ℚ) / 100 ∧
      ((onStateChanged constScales false STATE_IDLE 99 pendingXState).1).steps axisX = 0 ∧
      ((onStateChanged constScales false STATE_IDLE 99 pendingXState).1).odometer_changed = false) :=
  ⟨by norm_num, by decide, by decide, by decide, by decide,
    C1_steps_folded_on_inactive constScales false pendingXState axisX 100 10000 STATE_IDLE 99
      (by norm_num) rfl (by decide) (by decide) (by decide) (by decide)⟩

/-- C2 (code-bug evidence): the spindle wrapper records the on-epoch in a
`static uint32_t ms` and treats `ms == 0` as "no epoch"; a spindle turned on
at tick 0 therefore accumulates nothing when turned off at tick 3,660,000,
while the claim (spec scenario B) requires `spindleTimeMs += 3,660,000`.
The report format itself does produce `1:01` for 3,660,000 ms, and turning
on at tick 1 / off at tick 3,660,001 does accumulate 3,660,000 ms. -/
theorem C2_spindle_on_at_tick0_not_counted :
    ((onSpindleSetState false 3660000 ((onSpindleSetState true 0 startState).1)).1).odometers.spindle = 0 ∧
    (onSpindleSetState false 3660000 ((onSpindleSetState true 0 startState).1)).2
      = [Effect.forward_spindle] ∧
    ((onSpindleSetState false 3660001 ((onSpindleSetState true 1 startState).1)).1).odometers.spindle
      = 3660000 ∧
    formatHM 3660000 = "1:01" := by
  refine ⟨by decide, by decide, ?_, by decide⟩
  simp [onSpindleSetState, startState, zeroRecord, u32sub, U32]

/-- C3: `odometer_data_reset(true)` copies the current record `R` into the
in-memory previous record and the previous slot, zeroes the current record
and its slot, and performs exactly the two slot writes. -/
theorem C3_reset_with_backup (st : OdoState) (R : odometer_data_t)
    (hR : st.odometers = R) :
    ((odometer_data_reset true st).1).odometers_prv = R ∧
    ((odometer_data_reset true st).1).nvs_prv = some R ∧
    ((odometer_data_reset true st).1).odometers = zeroRecord ∧
    ((odometer_data_reset true st).1).nvs_current = some zeroRecord ∧
    (odometer_data_reset true st).2 = [Effect.nvs_write_prv, Effect.nvs_write_current] := by
  subst hR
  simp [odometer_data_reset]

/-- C3 witness: reset-with-backup on a state whose current record is
`sampleRecord`. -/
theorem C3_reset_with_backup_witness :
    sampleCurrentState.odometers = sampleRecord ∧
    (((odometer_data_reset true sampleCurrentState).1).odometers_prv = sampleRecord ∧
      ((odometer_data_reset true sampleCurrentState).1).nvs_prv = some sampleRecord ∧
      ((odometer_data_reset true sampleCurrentState).1).odometers = zeroRecord ∧
      ((odometer_data_reset true sampleCurrentState).1).nvs_current = some zeroRecord ∧
      (odometer_data_reset true sampleCurrentState).2
        = [Effect.nvs_write_prv, Effect.nvs_write_current]) :=
  ⟨rfl, C3_reset_with_backup sampleCurrentState sampleRecord rfl⟩

/-- C4: `odometer_data_reset(false)` leaves the in-memory previous record
and the previous slot untouched; the current record and its slot become the
all-zero record, and the previous slot is not written. -/
theorem C4_reset_without_backup (st : OdoState) :
    ((odometer_data_reset false st).1).odometers_prv = st.odometers_prv ∧
    ((odometer_data_reset false st).1).nvs_prv = st.nvs_prv ∧
    ((odometer_data_reset false st).1).odometers = zeroRecord ∧
    ((odometer_data_reset false st).1).nvs_current = some zeroRecord ∧
    (odometer_data_reset false st).2 = [Effect.nvs_write_current] := by
  simp [odometer_data_reset]

/-- C5 counterexample: the `PREV` query is not a reset-with-backup, yet it
modifies the in-memory previous record — `memcpy_from_nvs` loads the
previous slot into `odometers_prv`.  After a reboot the static
`odometers_prv` is zero while the slot still holds old data, so the load
changes it. -/
theorem C5_prev_query_modifies_previous_record :
    isBackupReset (Op.command (some "PREV")) = false ∧
    (applyOp constScales false (Op.command (some "PREV")) rebootedState).odometers_prv
      ≠ rebootedState.odometers_prv := by
  exact ⟨by decide, by decide⟩

/-- C5 (amended): the previous NVS slot is written only by a
reset-with-backup (direct call or the `RST` command); the in-memory
previous record changes only under a reset-with-backup or a `PREV` query
(which overwrites it with the loaded previous-slot contents). -/
theorem C5_previous_record_frame (scales : Fin N_AXIS → ℚ) (b : Bool)
    (op : Op) (st : OdoState) (h : isBackupReset op = false) :
    (applyOp scales b op st).nvs_prv = st.nvs_prv ∧
    ((applyOp scales b op st).odometers_prv = st.odometers_prv ∨ isPrevQuery op = true) := by
  cases op with
  | pulse s => simp [applyOp, stepperPulseStart]
  | state_changed state now =>
    by_cases h1 : state &&& activeMask = 0
    · by_cases h2 : st.odometer_changed <;> simp [applyOp, onStateChanged, h1, h2]
    · simp [applyOp, onStateChanged, h1]
  | spindle_set_state state_on now =>
    cases state_on
    · by_cases h2 : st.ms_spindle = 0 <;> simp [applyOp, onSpindleSetState, h2]
    · simp [applyOp, onSpindleSetState]
  | write_task => simp [applyOp, odometers_write]
  | reset backup =>
    cases backup
    · simp [applyOp, odometer_data_reset]
    · simp [isBackupReset] at h
  | command args =>
    cases args with
    | none => simp [applyOp, odometer_command]
    | some s =>
      by_cases hp : strcaps s = "PREV"
      · cases hq : st.nvs_prv <;>
          simp [applyOp, odometer_command, hp, hq, isPrevQuery]
      · by_cases hr : strcaps s = "RST"
        · exact absurd h (by simp [isBackupReset, hr])
        · simp [applyOp, odometer_command, hp, hr]

/-- C5 (amended) witness: an unrecognized command touches neither the
previous slot nor the in-memory previous record. -/
theorem C5_previous_record_frame_witness :
    isBackupReset (Op.command (some "FOO")) = false ∧
    ((applyOp constScales false (Op.command (some "FOO")) rebootedState).nvs_prv
        = rebootedState.nvs_prv ∧
      ((applyOp constScales false (Op.command (some "FOO")) rebootedState).odometers_prv
          = rebootedState.odometers_prv ∨
        isPrevQuery (Op.command (some "FOO")) = true)) :=
  ⟨by decide,
    C5_previous_record_frame constScales false (Op.command (some "FOO")) rebootedState (by decide)⟩

/-- C6: `motorTimeMs` (`motors`) and `spindleTimeMs` (`spindle`) never
decrease under a state-change notification or a spindle set-state call. -/
theorem C6_time_counters_monotone (scales : Fin N_AXIS → ℚ) (b : Bool)
    (state now now' : Nat) (state_on : Bool) (st : OdoState) :
    st.odometers.motors ≤ ((onStateChanged scales b state now st).1).odometers.motors ∧
    st.odometers.spindle ≤ ((onStateChanged scales b state now st).1).odometers.spindle ∧
    st.odometers.motors ≤ ((onSpindleSetState state_on now' st).1).odometers.motors ∧
    st.odometers.spindle ≤ ((onSpindleSetState state_on now' st).1).odometers.spindle := by
  refine ⟨?_, ?_, ?_, ?_⟩
  · by_cases h1 : state &&& activeMask = 0
    · by_cases h2 : st.odometer_changed <;>
        simp [onStateChanged, h1, h2, Nat.le_add_right]
    · simp [onStateChanged, h1]
  · by_cases h1 : state &&& activeMask = 0
    · by_cases h2 : st.odometer_changed <;> simp [onStateChanged, h1, h2]
    · simp [onStateChanged, h1]
  · cases state_on
    · by_cases h2 : st.ms_spindle = 0 <;> simp [onSpindleSetState, h2]
    · simp [onSpindleSetState]
  · cases state_on
    · by_cases h2 : st.ms_spindle = 0 <;>
        simp [onSpindleSetState, h2, Nat.le_add_right]
    · simp [onSpindleSetState]

/-- C7: a `PREV` query whose previous-slot load fails emits the
"Previous odometer values not available" warning and still returns
`Status_OK` — never `Status_Unhandled` and never an error code. -/
theorem C7_prev_load_failure_is_ok (st : OdoState) (arg : String)
    (harg : strcaps arg = "PREV") (hprev : st.nvs_prv = none) :
    (odometer_command (some arg) st).2.1 = status_code_t.Status_OK ∧
    (odometer_command (some arg) st).2.1 ≠ status_code_t.Status_Unhandled ∧
    (∀ c, (odometer_command (some arg) st).2.1 ≠ status_code_t.Status_Error c) ∧
    Effect.report "Previous odometer values not available" message_type_t.Warning
      ∈ (odometer_command (some arg) st).2.2 := by
  simp [odometer_command, harg, hprev]

/-- C7 witness: `PREV` on the pristine state (both slots absent, so the
load fails) returns `Status_OK` with the warning message. -/
theorem C7_prev_load_failure_is_ok_witness :
    strcaps "PREV" = "PREV" ∧ startState.nvs_prv = none ∧
    ((odometer_command (some "PREV") startState).2.1 = status_code_t.Status_OK ∧
      (odometer_command (some "PREV") startState).2.1 ≠ status_code_t.Status_Unhandled ∧
      (∀ c, (odometer_command (some "PREV") startState).2.1 ≠ status_code_t.Status_Error c) ∧
      Effect.report "Previous odometer values not available" message_type_t.Warning
        ∈ (odometer_command (some "PREV") startState).2.2) :=
  ⟨by decide, rfl, C7_prev_load_failure_is_ok startState "PREV" (by decide) rfl⟩

/-- C8: any non-empty argument whose upper-cased form is neither `PREV` nor
`RST` yields `Status_Unhandled` — distinct from `Status_OK` and from every
error code — with the state (record and slots) unchanged and no output. -/
theorem C8_unrecognized_argument (st : OdoState) (arg : String)
    (hne : arg ≠ "") (hp : strcaps arg ≠ "PREV") (hr : strcaps arg ≠ "RST") :
    odometer_command (some arg) st = (st, status_code_t.Status_Unhandled, []) ∧
    status_code_t.Status_Unhandled ≠ status_code_t.Status_OK ∧
    (∀ c, status_code_t.Status_Unhandled ≠ status_code_t.Status_Error c) := by
  simp [odometer_command, hp, hr]

/-- C8 witness: the argument `"FOO"`. -/
theorem C8_unrecognized_argument_witness :
    "FOO" ≠ "" ∧ strcaps "FOO" ≠ "PREV" ∧ strcaps "FOO" ≠ "RST" ∧
    (odometer_command (some "FOO") startState
        = (startState, status_code_t.Status_Unhandled, []) ∧
      status_code_t.Status_Unhandled ≠ status_code_t.Status_OK ∧
      (∀ c, status_code_t.Status_Unhandled ≠ status_code_t.Status_Error c)) :=
  ⟨by decide, by decide, by decide,
    C8_unrecognized_argument startState "FOO" (by decide) (by decide) (by decide)⟩

/-- C9: when the NVS backend is neither EEPROM nor FRAM, or the free
capacity is below `2 * (sizeof(odometer_data_t) + NVS_CRC_BYTES)`,
initialisation installs no hooks, registers no command, sets no capability
bit, leaves the module state untouched, and only schedules the single
startup warning. -/
theorem C9_init_disabled_entirely (env : InitEnv)
    (h : ¬ (env.nvs_typ = nvs_type.NVS_EEPROM ∨ env.nvs_typ = nvs_type.NVS_FRAM) ∨
      env.NVS_SIZE - env.GRBL_NVS_SIZE - env.driver_area_size <
        (sizeof_odometer_data_t + env.NVS_CRC_BYTES) * 2) :
    (odometer_init env).hooks_installed = false ∧
    (odometer_init env).commands_registered = false ∧
    (odometer_init env).capability_set = false ∧
    (odometer_init env).st = initialState env ∧
    ((odometer_init env).startup_warnings = ["EEPROM or FRAM is required for odometers!"] ∨
      (odometer_init env).startup_warnings = ["Not enough NVS storage for odometers!"]) := by
  by_cases ht : env.nvs_typ = nvs_type.NVS_EEPROM ∨ env.nvs_typ = nvs_type.NVS_FRAM
  · have hcap : env.NVS_SIZE - env.GRBL_NVS_SIZE - env.driver_area_size <
        (sizeof_odometer_data_t + env.NVS_CRC_BYTES) * 2 := h.resolve_left (not_not_intro ht)
    simp [odometer_init, ht, hcap]
  · simp [odometer_init, ht]

/-- C9 witness: a flash backend is rejected with the EEPROM/FRAM warning
and nothing is installed. -/
theorem C9_init_disabled_entirely_witness :
    (¬ (flashEnv.nvs_typ = nvs_type.NVS_EEPROM ∨ flashEnv.nvs_typ = nvs_type.NVS_FRAM) ∨
      flashEnv.NVS_SIZE - flashEnv.GRBL_NVS_SIZE - flashEnv.driver_area_size <
        (sizeof_odometer_data_t + flashEnv.NVS_CRC_BYTES) * 2) ∧
    ((odometer_init flashEnv).hooks_installed = false ∧
      (odometer_init flashEnv).commands_registered = false ∧
      (odometer_init flashEnv).capability_set = false ∧
      (odometer_init flashEnv).st = initialState flashEnv ∧
      ((odometer_init flashEnv).startup_warnings
          = ["EEPROM or FRAM is required for odometers!"] ∨
        (odometer_init flashEnv).startup_warnings
          = ["Not enough NVS storage for odometers!"])) :=
  ⟨by decide, C9_init_disabled_entirely flashEnv (by decide)⟩

/-- C10: a state-change notification to an inactive state with the dirty
flag clear changes nothing — not the record, step counters, flag, epochs or
NVS slots — and its only effect is forwarding the notification to the saved
subscriber (when one was registered). -/
theorem C10_inactive_clean_notification_is_noop (scales : Fin N_AXIS → ℚ) (b : Bool)
    (state now : Nat) (st : OdoState)
    (hinactive : state &&& activeMask = 0) (hclean : st.odometer_changed = false) :
    onStateChanged scales b state now st
      = (st, if b then [Effect.forward_state state] else []) := by
  simp [onStateChanged, hinactive, hclean]

/-- C10 witness: notifying `STATE_IDLE` on the pristine state with a saved
subscriber forwards the notification and changes nothing. -/
theorem C10_inactive_clean_notification_is_noop_witness :
    STATE_IDLE &&& activeMask = 0 ∧ startState.odometer_changed = false ∧
    onStateChanged constScales true STATE_IDLE 42 startState
      = (startState, if true then [Effect.forward_state STATE_IDLE] else []) :=
  ⟨by decide, rfl,
    C10_inactive_clean_notification_is_noop constScales true STATE_IDLE 42 startState
      (by decide) rfl⟩

end Odometer
